import Mathlib

/-!
Shallow embedding of `src/mantenimiento_app.py` (a Streamlit maintenance
tracker): the record store, the weekly ISO-bucketing/export pipeline, the
pre-export string formatting, and the table data handed to the Excel and
PDF renderers.  Dates carried by records are the values produced by
`pd.to_datetime(..., errors="coerce")`: an unparseable cell is `none`
(pandas `NaT`), a parseable one is `some` of a valid calendar date.
-/

namespace Mantenimiento

/-- A calendar date (proleptic Gregorian), as carried by a parsed
`Fecha de Mantenimiento` cell. -/
structure Date where
  year : Nat
  month : Nat
  day : Nat
deriving DecidableEq, Repr

/-- A time of day, as carried by a parsed `Hora` cell. -/
structure TimeOfDay where
  hour : Nat
  minute : Nat
deriving DecidableEq, Repr

/-- Gregorian leap-year rule. -/
def isLeap (y : Nat) : Bool :=
  (y % 4 == 0 && y % 100 != 0) || y % 400 == 0

/-- Number of days in a month. -/
def daysInMonth (y m : Nat) : Nat :=
  match m with
  | 2 => if isLeap y then 29 else 28
  | 4 | 6 | 9 | 11 => 30
  | _ => 31

/-- Days of the year strictly before the first day of month `m`. -/
def daysBeforeMonth (y m : Nat) : Nat :=
  let base : Nat :=
    match m with
    | 1 => 0 | 2 => 31 | 3 => 59 | 4 => 90 | 5 => 120 | 6 => 151
    | 7 => 181 | 8 => 212 | 9 => 243 | 10 => 273 | 11 => 304 | _ => 334
  if isLeap y && m ≥ 3 then base + 1 else base

/-- Ordinal day of the year (1 = January 1). -/
def ordinalDay (d : Date) : Nat :=
  daysBeforeMonth d.year d.month + d.day

/-- Rata-die day number: day 1 is 0001-01-01 (a Monday, proleptic Gregorian). -/
def rataDie (d : Date) : Nat :=
  365 * (d.year - 1) + (d.year - 1) / 4 - (d.year - 1) / 100 + (d.year - 1) / 400
    + ordinalDay d

/-- ISO day of week: 1 = Monday .. 7 = Sunday. -/
def dow (d : Date) : Nat :=
  (rataDie d - 1) % 7 + 1

/-- Number of ISO-8601 weeks in the ISO year `y` (52 or 53). -/
def isoWeeksInYear (y : Nat) : Nat :=
  let j := dow ⟨y, 1, 1⟩
  if j == 4 || (isLeap y && j == 3) then 53 else 52

/-- ISO-8601 (week-numbering year, week number) of a date; this is what
pandas `Series.dt.isocalendar()` computes. -/
def isoPair (d : Date) : Nat × Nat :=
  let w := (ordinalDay d + 10 - dow d) / 7
  if w = 0 then (d.year - 1, isoWeeksInYear (d.year - 1))
  else if w > isoWeeksInYear d.year then (d.year + 1, 1)
  else (d.year, w)

/-- ISO-8601 week number (`.dt.isocalendar().week` in the source). -/
def Date.isoWeek (d : Date) : Nat := (isoPair d).2

/-- ISO-8601 week-numbering year (NOT what the source uses for `Año`). -/
def Date.isoYear (d : Date) : Nat := (isoPair d).1

/-- Validity of a parsed date: a real calendar date inside the
`pandas.Timestamp` nanosecond range (years 1678–2261); `to_datetime`
with `errors="coerce"` can only produce such dates, anything else
becomes `NaT`. -/
def Date.validb (d : Date) : Bool :=
  1 ≤ d.month && d.month ≤ 12 && 1 ≤ d.day && d.day ≤ daysInMonth d.year d.month
    && 1678 ≤ d.year && d.year ≤ 2261

/-! ### strftime pieces

The exact renderings used by the source: `%d–%b` and `%d–%b %Y` in the
week-range label (line 157), `%d-%b-%Y` for dates and `%I:%M %p` for
times in the exported table (lines 51, 54, 168, 169).  `%d` is the
zero-padded 2-digit day, `%b` the C-locale month abbreviation, `%Y` the
zero-padded 4-digit year. -/

/-- The ASCII digit character of `n % 10`. -/
def dig (n : Nat) : Char := Char.ofNat (48 + n % 10)

/-- Numeric value of a digit character (inverse of `dig` on digits). -/
def unDig (c : Char) : Nat := c.toNat - 48

/-- strftime `%d` (and `%I`, `%M`): zero-padded two-digit rendering,
faithful for values below 100 (days, hours and minutes always are). -/
def pad2 (n : Nat) : String := String.mk [dig (n / 10), dig n]

/-- strftime `%Y`: zero-padded four-digit rendering, faithful for years
below 10000 (all pandas-representable years are). -/
def y4 (y : Nat) : String :=
  String.mk [dig (y / 1000), dig (y / 100), dig (y / 10), dig y]

/-- strftime `%b`: C-locale month abbreviation. -/
def monAbbr : Nat → String
  | 1 => "Jan" | 2 => "Feb" | 3 => "Mar" | 4 => "Apr" | 5 => "May" | 6 => "Jun"
  | 7 => "Jul" | 8 => "Aug" | 9 => "Sep" | 10 => "Oct" | 11 => "Nov" | 12 => "Dec"
  | _ => ""

/-- strftime `%d–%b` (en dash), used for the range label's endpoints. -/
def fmtDM (d : Date) : String := pad2 d.day ++ "–" ++ monAbbr d.month

/-- strftime `%d-%b-%Y`, the exported `Fecha de Mantenimiento` format. -/
def fmtDMY (d : Date) : String :=
  pad2 d.day ++ "-" ++ monAbbr d.month ++ "-" ++ y4 d.year

/-- strftime `%I:%M %p`, the exported `Hora` format (12-hour clock). -/
def fmt12 (t : TimeOfDay) : String :=
  let h12 := if t.hour % 12 = 0 then 12 else t.hour % 12
  pad2 h12 ++ ":" ++ pad2 t.minute ++ (if t.hour < 12 then " AM" else " PM")

/-! ### Records and the store -/

/-- One row of the equipment table (`data/equipos.xlsx`).  String fields
hold their cell text (empty string when blank); `fecha` and `hora` hold
the result of parsing the date/time cells (`none` = unparseable/absent,
i.e. pandas `NaT`). -/
structure Record where
  tipo : String
  departamento : String
  sucursal : String
  responsable : String
  posicion : String
  nombre : String
  correo : String
  fecha : Option Date
  hora : Option TimeOfDay
deriving DecidableEq, Repr

/-- Contents of the backing file `data/equipos.xlsx`: `none` when the
file does not exist yet. -/
structure Backing where
  contents : Option (List Record)
deriving DecidableEq

/-- Embeds `load_data` (lines 25–34): read the table if the file exists;
otherwise create it with the empty schema and return the empty table.
Returns the loaded rows together with the (possibly initialized) file. -/
def load_data (b : Backing) : List Record × Backing :=
  match b.contents with
  | some l => (l, b)
  | none => ([], ⟨some []⟩)

/-- Embeds `save_data` (lines 36–37): full overwrite of the backing file. -/
def save_data (l : List Record) (_b : Backing) : Backing := ⟨some l⟩

/-- The values the add-equipment form supplies (lines 99–107); the
date/time widgets always yield a concrete date and time. -/
structure FormInput where
  tipo : String
  departamento : String
  sucursal : String
  responsable : String
  posicion : String
  nombre : String
  correo : String
  fecha : Date
  hora : TimeOfDay
deriving DecidableEq, Repr

/-- The `new_row` dict built on form submit (lines 111–121). -/
def mkRecord (f : FormInput) : Record :=
  { tipo := f.tipo, departamento := f.departamento, sucursal := f.sucursal
    responsable := f.responsable, posicion := f.posicion, nombre := f.nombre
    correo := f.correo, fecha := some f.fecha, hora := some f.hora }

/-- Embeds the form-submit path (lines 93, 110–123): load the table,
and when the form was submitted with a non-empty name, concatenate the
new row at the end (`pd.concat(..., ignore_index=True)`) and save. -/
def formSubmit (b : Backing) (f : FormInput) (submitted : Bool) : Backing :=
  let (df, b1) := load_data b
  if submitted && !(f.nombre == "") then save_data (df ++ [mkRecord f]) b1
  else b1

/-! ### Weekly bucketing (lines 149–165) -/

/-- The `(Año, Semana)` pair the source attaches to a dated row
(lines 151–152): the ISO week number paired with the CALENDAR year
(`.dt.year`), not the ISO week-numbering year. -/
def bucketKey (d : Date) : Nat × Nat := (d.year, d.isoWeek)

/-- Rows of the selected bucket (line 165): the filter
`(df["Año"] == año) & (df["Semana"] == sem)`; rows with `NaT` dates have
`NA` keys and never match. -/
def bucketMembers (rs : List Record) (k : Nat × Nat) : List Record :=
  rs.filter fun r =>
    match r.fecha with
    | some d => bucketKey d == k
    | none => false

/-- Ascending lexicographic order on `(Año, Semana)` keys, the order
pandas `groupby` emits groups in. -/
def keyLE (a b : Nat × Nat) : Bool :=
  a.1 < b.1 || (a.1 == b.1 && a.2 ≤ b.2)

/-- Insert a key into an ascending duplicate-free key list. -/
def insertKey (k : Nat × Nat) : List (Nat × Nat) → List (Nat × Nat)
  | [] => [k]
  | x :: xs =>
    if k = x then x :: xs
    else if keyLE k x then k :: x :: xs
    else x :: insertKey k xs

/-- The group keys of `df.groupby(["Año", "Semana"])` (line 155): the
distinct `(Año, Semana)` pairs of the dated rows, ascending; rows with
`NaT` dates are dropped (`dropna=True` default). -/
def bucketKeys (rs : List Record) : List (Nat × Nat) :=
  (rs.filterMap fun r => r.fecha.map bucketKey).foldr insertKey []

/-- The dates of a bucket's member rows (the group's
`Fecha de Mantenimiento` column). -/
def memberDates (rs : List Record) (k : Nat × Nat) : List Date :=
  (bucketMembers rs k).filterMap (·.fecha)

/-- Chronological order on dates. -/
def dateLE (a b : Date) : Bool :=
  a.year < b.year || (a.year == b.year &&
    (a.month < b.month || (a.month == b.month && a.day ≤ b.day)))

/-- The group aggregate `min` of a date column. -/
def minD : List Date → Option Date
  | [] => none
  | d :: ds => some (ds.foldl (fun a b => if dateLE b a then b else a) d)

/-- The group aggregate `max` of a date column. -/
def maxD : List Date → Option Date
  | [] => none
  | d :: ds => some (ds.foldl (fun a b => if dateLE a b then b else a) d)

/-- The `Rango` label of a bucket (lines 156–158):
`f"Semana del ({min:%d–%b} al {max:%d–%b %Y})"`. -/
def rango (rs : List Record) (k : Nat × Nat) : String :=
  match minD (memberDates rs k), maxD (memberDates rs k) with
  | some a, some b =>
      "Semana del (" ++ fmtDM a ++ " al " ++ fmtDM b ++ " " ++ y4 b.year ++ ")"
  | _, _ => ""

/-! ### Selection and the export block (lines 147–183) -/

/-- Streamlit `st.selectbox` over the option list: the user picks an
index; out-of-range falls back to the default first option; with no
options the widget returns `None`. -/
def selectboxPick (labels : List String) (choice : Nat) : Option String :=
  match labels.get? choice with
  | some l => some l
  | none => labels.head?

/-- Outcome of the export block: the informational empty-store message
(line 183), a successful export of one bucket (key, selected label,
member rows), or an unhandled exception (the `.iloc[0]` lookup on line
163 raises `IndexError` when no bucket row matches the selection). -/
inductive ExportOutcome where
  | info : ExportOutcome
  | exported (key : Nat × Nat) (label : String) (members : List Record) : ExportOutcome
  | error : ExportOutcome
deriving DecidableEq, Repr

/-- Embeds the export block (lines 149–183) up to the artifact writes:
empty table → info message; otherwise build the week buckets, offer
their labels in a selectbox, take the FIRST bucket row whose `Rango`
equals the selected label (`.iloc[0]`), and filter the table to that
bucket's `(Año, Semana)`. -/
def runExport (rs : List Record) (choice : Nat) : ExportOutcome :=
  if rs.isEmpty then .info
  else
    let keys := bucketKeys rs
    let labels := keys.map (rango rs)
    match selectboxPick labels choice with
    | none => .error
    | some lbl =>
      match keys.find? (fun k => rango rs k == lbl) with
      | none => .error
      | some k => .exported k lbl (bucketMembers rs k)

/-! ### Artifact names (lines 172–181) -/

/-- On-disk Excel path (line 172):
`os.path.join("exports", f"mantenimiento_semana_SAÑO_SEM.xlsx")`. -/
def excel_filename (k : Nat × Nat) : String :=
  "exports/mantenimiento_semana_" ++ toString k.1 ++ "_" ++ toString k.2 ++ ".xlsx"

/-- On-disk PDF path (line 178). -/
def pdf_filename (k : Nat × Nat) : String :=
  "exports/mantenimiento_semana_" ++ toString k.1 ++ "_" ++ toString k.2 ++ ".pdf"

/-- Suggested download name of the Excel artifact (line 175):
`f"mantenimiento_SELECTED.xlsx"` with the selected `Rango` label. -/
def excelDownloadName (selected : String) : String :=
  "mantenimiento_" ++ selected ++ ".xlsx"

/-- Suggested download name of the PDF artifact (line 181). -/
def pdfDownloadName (selected : String) : String :=
  "mantenimiento_" ++ selected ++ ".pdf"

/-- Modelled from the spec's words (interface §6), for comparison with
the names the code produces: the claimed pattern
`mantenimiento_<year>_semana_<isoWeek>.<ext>`. -/
def specSuggestedFilename (k : Nat × Nat) (ext : String) : String :=
  "mantenimiento_" ++ toString k.1 ++ "_semana_" ++ toString k.2 ++ "." ++ ext

/-! ### The tabular view and the two renderers

A dataframe cell after the pre-export formatting: a string, a number
(the `Semana`/`Año` columns), or a missing value (`NaN`, which
`Series.dt.strftime` yields on `NaT`).  `openpyxl` writes `NaN` as an
empty cell; reportlab's `Table` stringifies it as `"nan"`. -/

/-- A formatted dataframe cell. -/
inductive Cell where
  | str (s : String) : Cell
  | num (n : Nat) : Cell
  | nan : Cell
deriving DecidableEq, Repr

/-- Text a cell contributes to the PDF table (`str()` of the value;
`str(float("nan"))` is `"nan"`). -/
def cellPdfText : Cell → String
  | .str s => s
  | .num n => toString n
  | .nan => "nan"

/-- Text a cell shows in the written spreadsheet (`NaN` → empty cell). -/
def cellExcelText : Cell → String
  | .str s => s
  | .num n => toString n
  | .nan => ""

/-- A dataframe at the point it is handed to a renderer: column names
and rows of cells aligned to them. -/
structure Frame where
  cols : List String
  rows : List (List Cell)
deriving DecidableEq, Repr

/-- The PDF table data (line 72): `[list(df.columns)] + df.values.tolist()`,
each value stringified by reportlab. -/
def pdfTableData (f : Frame) : List (List String) :=
  f.cols :: f.rows.map (·.map cellPdfText)

/-- The written spreadsheet (line 173, `to_excel(index=False)`): header
row then one row per record. -/
def excelData (f : Frame) : List (List String) :=
  f.cols :: f.rows.map (·.map cellExcelText)

/-- Apply `g` to the column named `name`, if present (the
`if col in df.columns: df[col] = ...` pattern of lines 50–54). -/
def mapColumn (f : Frame) (name : String) (g : Cell → Cell) : Frame :=
  match f.cols.findIdx? (· == name) with
  | none => f
  | some i => { f with rows := f.rows.map fun row => row.mapIdx fun j c => if j = i then g c else c }

/-- Parse a `DD-Mon-YYYY` string back (the shape this app's own
formatting produces; `pd.to_datetime` accepts it).  Other strings this
app never generates in the date column are treated as unparseable. -/
def parseDMY (s : String) : Option Date :=
  match s.data with
  | [d1, d2, '-', m1, m2, m3, '-', y1, y2, y3, y0] =>
    match (List.range 13).find? (fun m => 1 ≤ m && monAbbr m == String.mk [m1, m2, m3]) with
    | some m =>
      if d1.isDigit && d2.isDigit && y1.isDigit && y2.isDigit && y3.isDigit && y0.isDigit then
        let d := 10 * unDig d1 + unDig d2
        let y := 1000 * unDig y1 + 100 * unDig y2 + 10 * unDig y3 + unDig y0
        if 1 ≤ d && d ≤ daysInMonth y m && 1678 ≤ y && y ≤ 2261 then
          some ⟨y, m, d⟩
        else none
      else none
    | none => none
  | _ => none

/-- Parse an `HH:MM PM` / `HH:MM:SS`-shaped string back (the shapes the
app itself writes into the `Hora` column). -/
def parseTime (s : String) : Option TimeOfDay :=
  match s.data with
  | [h1, h2, ':', m1, m2, ' ', p, 'M'] =>
    if h1.isDigit && h2.isDigit && m1.isDigit && m2.isDigit then
      let h12 := 10 * unDig h1 + unDig h2
      let m := 10 * unDig m1 + unDig m2
      if 1 ≤ h12 && h12 ≤ 12 && m ≤ 59 then
        match p with
        | 'A' => some ⟨h12 % 12, m⟩
        | 'P' => some ⟨h12 % 12 + 12, m⟩
        | _ => none
      else none
    else none
  | [h1, h2, ':', m1, m2, ':', s1, s2] =>
    if h1.isDigit && h2.isDigit && m1.isDigit && m2.isDigit && s1.isDigit && s2.isDigit then
      let h := 10 * unDig h1 + unDig h2
      let m := 10 * unDig m1 + unDig m2
      if h ≤ 23 && m ≤ 59 && 10 * unDig s1 + unDig s2 ≤ 59 then some ⟨h, m⟩
      else none
    else none
  | _ => none

/-- Line 51: `pd.to_datetime(col, errors="coerce").dt.strftime("%d-%b-%Y")`
on an already-formatted column: reparse, reformat; failures become `NaN`.
(The app never places numbers in this column; pandas would read them as
epoch offsets — modelled as missing.) -/
def reformatDateCell : Cell → Cell
  | .str s =>
    match parseDMY s with
    | some d => .str (fmtDMY d)
    | none => .nan
  | _ => .nan

/-- Line 54: the same coerce-and-reformat for the `Hora` column with
`"%I:%M %p"`. -/
def reformatTimeCell : Cell → Cell
  | .str s =>
    match parseTime s with
    | some t => .str (fmt12 t)
    | none => .nan
  | _ => .nan

/-- The column transformations `export_pdf` applies to its private copy
(lines 48–56). -/
def export_pdf_frame (f : Frame) : Frame :=
  mapColumn (mapColumn f "Fecha de Mantenimiento" reformatDateCell) "Hora" reformatTimeCell

/-- The table data of the generated PDF for an input frame. -/
def export_pdf_data (f : Frame) : List (List String) :=
  pdfTableData (export_pdf_frame f)

/-! ### The exported week frame (lines 165–169)

`df_week` carries the nine original table columns plus the derived `Semana`
and `Año` columns added on lines 151–152; lines 168–169 then format the
date column as `%d-%b-%Y` and the (re-parsed) time column as
`%I:%M %p`, with `NaT`s becoming `NaN`. -/

/-- Columns of `df_week` as exported. -/
def weekCols : List String :=
  ["Tipo", "Departamento", "Sucursal", "Responsable", "Posicion",
   "Nombre de Equipo", "Correo", "Fecha de Mantenimiento", "Hora",
   "Semana", "Año"]

/-- strftime of a date column entry: `NaT` → `NaN`. -/
def fmtFecha : Option Date → Cell
  | some d => .str (fmtDMY d)
  | none => .nan

/-- coerce-and-strftime of a time column entry: unparseable → `NaN`. -/
def fmtHora : Option TimeOfDay → Cell
  | some t => .str (fmt12 t)
  | none => .nan

/-- One formatted row of `df_week`. -/
def formatRow (r : Record) : List Cell :=
  [.str r.tipo, .str r.departamento, .str r.sucursal, .str r.responsable,
   .str r.posicion, .str r.nombre, .str r.correo,
   fmtFecha r.fecha, fmtHora r.hora,
   (match r.fecha with | some d => .num d.isoWeek | none => .nan),
   (match r.fecha with | some d => .num d.year | none => .nan)]

/-- The frame handed to `to_excel` and `export_pdf` for the selected
bucket's rows. -/
def weekFrame (members : List Record) : Frame :=
  { cols := weekCols, rows := members.map formatRow }

/-! ### Heap model of `export_pdf`'s copy discipline (lines 42–85)

Python dataframes are heap references; `export_pdf` receives a
reference, makes a private copy (`df = df.copy()`, line 48) and mutates
only the copy.  We model the heap of live frames explicitly to state
the frame effect. -/

/-- A heap of dataframes: contents per id, plus the next fresh id. -/
structure Heap where
  frames : Nat → Frame
  next : Nat

/-- Overwrite the frame stored at `i`. -/
def Heap.set (h : Heap) (i : Nat) (f : Frame) : Heap :=
  ⟨fun j => if j = i then f else h.frames j, h.next⟩

/-- Embeds `export_pdf` (lines 42–85) at the heap level: copy the input
frame to a fresh id, reformat the date and time columns IN THE COPY,
and build the PDF table data from the copy.  Returns the final heap and
the PDF's table content. -/
def export_pdf_run (h : Heap) (dfId : Nat) : Heap × List (List String) :=
  let cId := h.next
  let h1 : Heap := ⟨fun i => if i = cId then h.frames dfId else h.frames i, h.next + 1⟩
  let h2 := h1.set cId (mapColumn (h1.frames cId) "Fecha de Mantenimiento" reformatDateCell)
  let h3 := h2.set cId (mapColumn (h2.frames cId) "Hora" reformatTimeCell)
  (h3, pdfTableData (h3.frames cId))

/-! ### Concrete scenario records -/

/-- A record with only a name and a maintenance date set. -/
def mkNamedDated (n : String) (d : Date) : Record :=
  { tipo := "", departamento := "", sucursal := "", responsable := ""
    posicion := "", nombre := n, correo := "", fecha := some d
    hora := some ⟨9, 0⟩ }

/-- The spec's end-to-end scenario records (§8). -/
def rec1 : Record := mkNamedDated "PC-1" ⟨2025, 10, 20⟩

/-- Second scenario record. -/
def rec2 : Record := mkNamedDated "PC-2" ⟨2025, 10, 24⟩

/-- Third scenario record. -/
def rec3 : Record := mkNamedDated "PC-3" ⟨2025, 10, 29⟩

/-- The end-to-end scenario record set. -/
def rs9 : List Record := [rec1, rec2, rec3]

/-- A record whose maintenance date cell is unparseable (`NaT`). -/
def recNoDate : Record :=
  { tipo := "Laptop", departamento := "", sucursal := "", responsable := ""
    posicion := "", nombre := "PC-X", correo := "", fecha := none, hora := none }

/-- Year-boundary scenario records (§8): 2024-12-30, 2025-01-01, 2025-12-31. -/
def recDec30 : Record := mkNamedDated "A" ⟨2024, 12, 30⟩

/-- Record dated 2025-01-01. -/
def recJan1 : Record := mkNamedDated "B" ⟨2025, 1, 1⟩

/-- Record dated 2025-12-31. -/
def recDec31 : Record := mkNamedDated "C" ⟨2025, 12, 31⟩

/-- Well-formedness of one record: a parsed date, when present, is a
real calendar date in the pandas-representable range (which is all
`to_datetime(errors="coerce")` can produce). -/
def recOk (r : Record) : Bool :=
  match r.fecha with
  | none => true
  | some d => d.validb

/-! ## Supporting lemmas -/

/-- Membership in a bucket's member list unfolds to the row filter. -/
theorem mem_bucketMembers {rs : List Record} {k : Nat × Nat} {r : Record} :
    r ∈ bucketMembers rs k ↔
      r ∈ rs ∧ ∃ d, r.fecha = some d ∧ bucketKey d = k := by
  unfold bucketMembers
  rw [List.mem_filter]
  constructor
  · rintro ⟨hr, hp⟩
    refine ⟨hr, ?_⟩
    cases hf : r.fecha with
    | none => rw [hf] at hp; cases hp
    | some d => rw [hf] at hp; exact ⟨d, rfl, by simpa using hp⟩
  · rintro ⟨hr, d, hf, hk⟩
    exact ⟨hr, by rw [hf]; simpa using hk⟩

/-- Membership is preserved by sorted-unique insertion. -/
theorem mem_insertKey {k j : Nat × Nat} {l : List (Nat × Nat)} :
    k ∈ insertKey j l ↔ k = j ∨ k ∈ l := by
  induction l with
  | nil => simp [insertKey]
  | cons x xs ih =>
    unfold insertKey
    split
    · next h1 =>
      subst h1
      simp only [List.mem_cons]
      tauto
    · split
      · simp only [List.mem_cons]
      · simp only [List.mem_cons, ih]
        tauto

/-- A key occurs among the group keys exactly when some row carries it. -/
theorem mem_bucketKeys {rs : List Record} {k : Nat × Nat} :
    k ∈ bucketKeys rs ↔ ∃ r ∈ rs, ∃ d, r.fecha = some d ∧ bucketKey d = k := by
  unfold bucketKeys
  have hfold : ∀ (L : List (Nat × Nat)), k ∈ L.foldr insertKey [] ↔ k ∈ L := by
    intro L
    induction L with
    | nil => simp
    | cons x xs ih => simp [mem_insertKey, ih]
  rw [hfold, List.mem_filterMap]
  constructor
  · rintro ⟨r, hr, hmap⟩
    cases hf : r.fecha with
    | none => rw [hf] at hmap; cases hmap
    | some d =>
      rw [hf] at hmap
      exact ⟨r, hr, d, hf, by simpa using hmap⟩
  · rintro ⟨r, hr, d, hf, hk⟩
    exact ⟨r, hr, by rw [hf]; simpa using hk⟩

/-- A date appears in a bucket's date column exactly when some row of
that bucket carries it; such a date's key is the bucket's key. -/
theorem mem_memberDates {rs : List Record} {k : Nat × Nat} {d : Date} :
    d ∈ memberDates rs k ↔ (∃ r ∈ rs, r.fecha = some d) ∧ bucketKey d = k := by
  unfold memberDates
  rw [List.mem_filterMap]
  constructor
  · rintro ⟨r, hr, hf⟩
    obtain ⟨hrs, d', hf', hk⟩ := mem_bucketMembers.mp hr
    rw [hf'] at hf
    cases hf
    exact ⟨⟨r, hrs, hf'⟩, hk⟩
  · rintro ⟨⟨r, hr, hf⟩, hk⟩
    exact ⟨r, mem_bucketMembers.mpr ⟨hr, d, hf, hk⟩, hf⟩

/-- A two-argument choice function always returns one of its arguments. -/
theorem foldl_pick_mem (f : Date → Date → Date)
    (hf : ∀ a b, f a b = a ∨ f a b = b) (d : Date) (ds : List Date) :
    ds.foldl f d ∈ d :: ds := by
  induction ds generalizing d with
  | nil => simp
  | cons x xs ih =>
    have h := ih (f d x)
    simp only [List.foldl_cons, List.mem_cons] at h ⊢
    rcases h with h | h
    · rcases hf d x with h1 | h1
      · exact Or.inl (h.trans h1)
      · exact Or.inr (Or.inl (h.trans h1))
    · exact Or.inr (Or.inr h)

/-- The group minimum is one of the group's dates. -/
theorem minD_mem {l : List Date} {m : Date} (h : minD l = some m) : m ∈ l := by
  cases l with
  | nil => cases h
  | cons d ds =>
    unfold minD at h
    injection h with h
    rw [← h]
    exact foldl_pick_mem _ (fun a b => by by_cases hab : dateLE b a <;> simp [hab]) d ds

/-- The group maximum is one of the group's dates. -/
theorem maxD_mem {l : List Date} {m : Date} (h : maxD l = some m) : m ∈ l := by
  cases l with
  | nil => cases h
  | cons d ds =>
    unfold maxD at h
    injection h with h
    rw [← h]
    exact foldl_pick_mem _ (fun a b => by by_cases hab : dateLE a b <;> simp [hab]) d ds

/-- Every listed group key has at least one member date. -/
theorem memberDates_ne_nil {rs : List Record} {k : Nat × Nat}
    (h : k ∈ bucketKeys rs) : memberDates rs k ≠ [] := by
  obtain ⟨r, hr, d, hf, hk⟩ := mem_bucketKeys.mp h
  have : d ∈ memberDates rs k := mem_memberDates.mpr ⟨⟨r, hr, hf⟩, hk⟩
  intro hnil
  rw [hnil] at this
  cases this

/-- Bounds carried by a valid date. -/
theorem validb_bounds {d : Date} (h : d.validb = true) :
    1 ≤ d.month ∧ d.month ≤ 12 ∧ 1 ≤ d.day ∧ d.day ≤ 31 ∧ d.year ≤ 9999 := by
  have hdm : daysInMonth d.year d.month ≤ 31 := by
    unfold daysInMonth
    split
    · split <;> omega
    all_goals omega
  simp only [Date.validb, Bool.and_eq_true, decide_eq_true_eq] at h
  omega

/-! Digit-level facts about the strftime renderings, used to show the
bucket labels are injective. -/

/-- Digit characters decode to the value's last digit. -/
theorem unDig_dig (n : Nat) : unDig (dig n) = n % 10 := by
  have hlt : n % 10 < 10 := Nat.mod_lt _ (by omega)
  have hd : dig n = dig (n % 10) := by
    unfold dig
    congr 1
    omega
  rw [hd]
  have hsmall : ∀ m < 10, unDig (dig m) = m := by decide
  exact hsmall _ hlt

/-- String data of an appended string. -/
theorem data_append (s t : String) : (s ++ t).data = s.data ++ t.data := by
  cases s
  cases t
  rfl

/-- The characters of the `%d–%b` rendering. -/
theorem fmtDM_data (d : Date) :
    (fmtDM d).data =
      dig (d.day / 10) :: dig d.day :: '–' :: (monAbbr d.month).data := by
  show (pad2 d.day ++ "–" ++ monAbbr d.month).data = _
  rw [data_append, data_append]
  rfl

/-- Month abbreviations have three letters. -/
theorem monAbbr_data_len : ∀ m < 13, 1 ≤ m → (monAbbr m).data.length = 3 := by
  decide

/-- Month abbreviations are distinct. -/
theorem monAbbr_data_inj : ∀ m1 < 13, ∀ m2 < 13, 1 ≤ m1 → 1 ≤ m2 →
    (monAbbr m1).data = (monAbbr m2).data → m1 = m2 := by
  decide

/-- The `%d–%b` rendering is six characters long for a valid date. -/
theorem fmtDM_data_len {d : Date} (h : d.validb = true) :
    (fmtDM d).data.length = 6 := by
  obtain ⟨hm1, hm2, -⟩ := validb_bounds h
  rw [fmtDM_data]
  simp [monAbbr_data_len d.month (by omega) hm1]

/-- Valid dates of a common year with equal `%d–%b` renderings are equal. -/
theorem fmtDM_inj {d1 d2 : Date} (h1 : d1.validb = true) (h2 : d2.validb = true)
    (hy : d1.year = d2.year) (h : (fmtDM d1).data = (fmtDM d2).data) :
    d1 = d2 := by
  obtain ⟨hm11, hm12, hd11, hd12, -⟩ := validb_bounds h1
  obtain ⟨hm21, hm22, hd21, hd22, -⟩ := validb_bounds h2
  rw [fmtDM_data, fmtDM_data] at h
  injection h with e1 h
  injection h with e2 h
  injection h with _ e3
  have u1 := congrArg unDig e1
  rw [unDig_dig, unDig_dig] at u1
  have u2 := congrArg unDig e2
  rw [unDig_dig, unDig_dig] at u2
  have hday : d1.day = d2.day := by omega
  have hmon : d1.month = d2.month :=
    monAbbr_data_inj d1.month (by omega) d2.month (by omega) hm11 hm21 e3
  cases d1
  cases d2
  simp_all

/-- Four-digit year renderings are injective below 10000. -/
theorem y4_inj {a b : Nat} (ha : a ≤ 9999) (hb : b ≤ 9999)
    (h : (y4 a).data = (y4 b).data) : a = b := by
  have h' : ([dig (a / 1000), dig (a / 100), dig (a / 10), dig a] : List Char)
      = [dig (b / 1000), dig (b / 100), dig (b / 10), dig b] := h
  simp only [List.cons.injEq, and_true] at h'
  obtain ⟨e1, e2, e3, e4⟩ := h'
  have u1 := congrArg unDig e1
  have u2 := congrArg unDig e2
  have u3 := congrArg unDig e3
  have u4 := congrArg unDig e4
  rw [unDig_dig, unDig_dig] at u1 u2 u3 u4
  omega

/-- The label text built from a bucket's min and max dates. -/
def labelStr (a b : Date) : String :=
  "Semana del (" ++ fmtDM a ++ " al " ++ fmtDM b ++ " " ++ y4 b.year ++ ")"

/-- For a listed key, `rango` is the label of the group's min and max,
and both are member dates. -/
theorem rango_spec {rs : List Record} {k : Nat × Nat} (h : k ∈ bucketKeys rs) :
    ∃ a b, a ∈ memberDates rs k ∧ b ∈ memberDates rs k ∧
      minD (memberDates rs k) = some a ∧ maxD (memberDates rs k) = some b ∧
      rango rs k = labelStr a b := by
  have hne := memberDates_ne_nil h
  have hmin : ∃ a, minD (memberDates rs k) = some a := by
    cases hl : memberDates rs k with
    | nil => exact absurd hl hne
    | cons x xs => exact ⟨_, rfl⟩
  have hmax : ∃ b, maxD (memberDates rs k) = some b := by
    cases hl : memberDates rs k with
    | nil => exact absurd hl hne
    | cons x xs => exact ⟨_, rfl⟩
  obtain ⟨a, ha⟩ := hmin
  obtain ⟨b, hb⟩ := hmax
  refine ⟨a, b, minD_mem ha, maxD_mem hb, ha, hb, ?_⟩
  unfold rango
  rw [ha, hb]
  rfl

/-- Dates reached through a well-formed record set are valid. -/
theorem valid_of_mem {rs : List Record} (hv : ∀ r ∈ rs, recOk r = true)
    {k : Nat × Nat} {d : Date} (hd : d ∈ memberDates rs k) : d.validb = true := by
  obtain ⟨⟨r, hr, hf⟩, -⟩ := mem_memberDates.mp hd
  have := hv r hr
  unfold recOk at this
  rw [hf] at this
  exact this

/-- Two equal labels built from valid dates with matching years within
each pair force both underlying date pairs to be equal. -/
theorem labelStr_inj {a1 b1 a2 b2 : Date}
    (va1 : a1.validb = true) (vb1 : b1.validb = true)
    (va2 : a2.validb = true) (vb2 : b2.validb = true)
    (hy1 : a1.year = b1.year) (hy2 : a2.year = b2.year)
    (h : labelStr a1 b1 = labelStr a2 b2) : a1 = a2 ∧ b1 = b2 := by
  have hd := congrArg String.data h
  unfold labelStr at hd
  simp only [data_append, List.append_assoc] at hd
  have hd1 := List.append_cancel_left hd
  obtain ⟨hA, hrest⟩ :=
    List.append_inj hd1 (by rw [fmtDM_data_len va1, fmtDM_data_len va2])
  have hrest2 := List.append_cancel_left hrest
  obtain ⟨hB, hrest3⟩ :=
    List.append_inj hrest2 (by rw [fmtDM_data_len vb1, fmtDM_data_len vb2])
  have hrest4 := List.append_cancel_left hrest3
  obtain ⟨hY, -⟩ := List.append_inj hrest4 (by rfl)
  have hyear : b1.year = b2.year :=
    y4_inj (validb_bounds vb1).2.2.2.2 (validb_bounds vb2).2.2.2.2 hY
  have ea : a1 = a2 := fmtDM_inj va1 va2 (by omega) hA
  have eb : b1 = b2 := fmtDM_inj vb1 vb2 hyear hB
  exact ⟨ea, eb⟩

/-- Distinct listed bucket keys render distinct labels. -/
theorem rango_inj {rs : List Record} (hv : ∀ r ∈ rs, recOk r = true)
    {k1 k2 : Nat × Nat} (h1 : k1 ∈ bucketKeys rs) (h2 : k2 ∈ bucketKeys rs)
    (heq : rango rs k1 = rango rs k2) : k1 = k2 := by
  obtain ⟨a1, b1, ha1, hb1, -, -, hr1⟩ := rango_spec h1
  obtain ⟨a2, b2, ha2, hb2, -, -, hr2⟩ := rango_spec h2
  rw [hr1, hr2] at heq
  have hka1 : bucketKey a1 = k1 := (mem_memberDates.mp ha1).2
  have hkb1 : bucketKey b1 = k1 := (mem_memberDates.mp hb1).2
  have hka2 : bucketKey a2 = k2 := (mem_memberDates.mp ha2).2
  have hkb2 : bucketKey b2 = k2 := (mem_memberDates.mp hb2).2
  have hy1 : a1.year = b1.year := by
    have e1 : a1.year = k1.1 := by rw [← hka1]; rfl
    have e2 : b1.year = k1.1 := by rw [← hkb1]; rfl
    omega
  have hy2 : a2.year = b2.year := by
    have e1 : a2.year = k2.1 := by rw [← hka2]; rfl
    have e2 : b2.year = k2.1 := by rw [← hkb2]; rfl
    omega
  obtain ⟨ea, -⟩ := labelStr_inj (valid_of_mem hv ha1) (valid_of_mem hv hb1)
    (valid_of_mem hv ha2) (valid_of_mem hv hb2) hy1 hy2 heq
  rw [← hka1, ← hka2, ea]

/-- A find-first over a list with a uniquely satisfied predicate
returns the satisfying element. -/
theorem find?_eq_self {l : List (Nat × Nat)} {p : Nat × Nat → Bool} {k : Nat × Nat}
    (hk : k ∈ l) (hpk : p k = true)
    (huniq : ∀ j ∈ l, p j = true → j = k) : l.find? p = some k := by
  induction l with
  | nil => cases hk
  | cons x xs ih =>
    by_cases hx : p x = true
    · rw [List.find?_cons_of_pos _ hx]
      rw [huniq x (List.mem_cons_self _ _) hx]
    · rw [List.find?_cons_of_neg _ (by simpa using hx)]
      have hk' : k ∈ xs := by
        rcases List.mem_cons.mp hk with h | h
        · subst h; exact absurd hpk hx
        · exact h
      exact ih hk' fun j hj hpj => huniq j (List.mem_cons_of_mem _ hj) hpj

/-! ## Claim theorems -/

/-- C1: the code pairs the ISO week number with the CALENDAR year
(`.dt.year`), not the ISO week-numbering year.  At the spec's own test
dates: 2024-12-30 and 2025-01-01 are both ISO 2025-W1 yet land in
DIFFERENT buckets, (2024, 1) and (2025, 1); and 2025-12-31 (ISO 2026-W1)
lands in the SAME bucket as 2025-01-01, namely (2025, 1).  Both halves
of the claim fail on the code even though the ISO week numbers
themselves are computed correctly. -/
theorem c1_calendar_year_bug :
    isoPair ⟨2024, 12, 30⟩ = (2025, 1) ∧
    isoPair ⟨2025, 1, 1⟩ = (2025, 1) ∧
    isoPair ⟨2025, 12, 31⟩ = (2026, 1) ∧
    bucketKey ⟨2024, 12, 30⟩ = (2024, 1) ∧
    bucketKey ⟨2025, 1, 1⟩ = (2025, 1) ∧
    bucketKey ⟨2025, 12, 31⟩ = (2025, 1) ∧
    bucketKey ⟨2024, 12, 30⟩ ≠ bucketKey ⟨2025, 1, 1⟩ ∧
    bucketKey ⟨2025, 12, 31⟩ = bucketKey ⟨2025, 1, 1⟩ ∧
    bucketKeys [recDec30, recJan1, recDec31] = [(2024, 1), (2025, 1)] ∧
    bucketMembers [recDec30, recJan1, recDec31] (2025, 1) = [recJan1, recDec31] := by
  decide

/-- C2: a non-empty store in which no record has a parseable date does
NOT produce the informational empty state: the export block still runs
(the `df.empty` guard passes), the bucket frame is empty, the selectbox
yields no label, and the `.iloc[0]` bucket lookup fails — modelled as
the `error` outcome.  The `info` outcome only arises for an empty
store. -/
theorem c2_empty_bucket_crash :
    runExport [recNoDate] 0 = ExportOutcome.error ∧
    runExport [] 0 = ExportOutcome.info ∧
    ExportOutcome.error ≠ ExportOutcome.info := by
  decide

/-- C9: the spec's end-to-end scenario.  The three October 2025 records
produce exactly the buckets (2025, 43) then (2025, 44) in that order;
choosing the first bucket exports exactly PC-1 and PC-2, and the
rendered table has a header row plus exactly those two data rows. -/
theorem c9_end_to_end :
    bucketKeys rs9 = [(2025, 43), (2025, 44)] ∧
    runExport rs9 0 =
      ExportOutcome.exported (2025, 43) "Semana del (20–Oct al 24–Oct 2025)" [rec1, rec2] ∧
    (weekFrame (bucketMembers rs9 (2025, 43))).rows.length = 2 ∧
    (excelData (weekFrame (bucketMembers rs9 (2025, 43)))).map (fun row => row.get? 5) =
      [some "Nombre de Equipo", some "PC-1", some "PC-2"] := by
  decide

/-- C6 counterexample: for bucket (2025, 43) of the end-to-end record
set, neither produced name matches the claimed pattern
`mantenimiento_<year>_semana_<isoWeek>.<ext>`: the on-disk path is
`exports/mantenimiento_semana_2025_43.xlsx` (components transposed) and
the suggested download name embeds the week label instead. -/
theorem c6_filename_counterexample :
    specSuggestedFilename (2025, 43) "xlsx" = "mantenimiento_2025_semana_43.xlsx" ∧
    excel_filename (2025, 43) = "exports/mantenimiento_semana_2025_43.xlsx" ∧
    excelDownloadName (rango rs9 (2025, 43)) =
      "mantenimiento_Semana del (20–Oct al 24–Oct 2025).xlsx" ∧
    excel_filename (2025, 43) ≠ "exports/" ++ specSuggestedFilename (2025, 43) "xlsx" ∧
    excelDownloadName (rango rs9 (2025, 43)) ≠ specSuggestedFilename (2025, 43) "xlsx" ∧
    pdf_filename (2025, 43) ≠ "exports/" ++ specSuggestedFilename (2025, 43) "pdf" ∧
    pdfDownloadName (rango rs9 (2025, 43)) ≠ specSuggestedFilename (2025, 43) "pdf" := by
  decide

/-- C6 amended: whenever the export block succeeds for key `k` with
selected label `lbl`, the artifacts are written to
`exports/mantenimiento_semana_<year>_<isoWeek>.<ext>` and offered for
download as `mantenimiento_<label>.<ext>`, where the label is the
`Rango` of the exported bucket and the exported rows are exactly that
bucket's members. -/
theorem c6_filenames (rs : List Record) (choice : Nat) (k : Nat × Nat)
    (lbl : String) (ms : List Record)
    (h : runExport rs choice = ExportOutcome.exported k lbl ms) :
    excel_filename k =
      "exports/mantenimiento_semana_" ++ toString k.1 ++ "_" ++ toString k.2 ++ ".xlsx" ∧
    pdf_filename k =
      "exports/mantenimiento_semana_" ++ toString k.1 ++ "_" ++ toString k.2 ++ ".pdf" ∧
    excelDownloadName lbl = "mantenimiento_" ++ lbl ++ ".xlsx" ∧
    pdfDownloadName lbl = "mantenimiento_" ++ lbl ++ ".pdf" ∧
    lbl = rango rs k ∧ ms = bucketMembers rs k := by
  refine ⟨rfl, rfl, rfl, rfl, ?_⟩
  unfold runExport at h
  split at h
  · cases h
  · dsimp only at h
    cases hsel : selectboxPick ((bucketKeys rs).map (rango rs)) choice with
    | none => rw [hsel] at h; cases h
    | some l =>
      rw [hsel] at h
      dsimp only at h
      cases hfind : (bucketKeys rs).find? (fun j => rango rs j == l) with
      | none => rw [hfind] at h; cases h
      | some j =>
        rw [hfind] at h
        injection h with hk hl hm
        have hp := List.find?_some hfind
        subst hk hl hm
        exact ⟨(beq_iff_eq.mp hp).symm, rfl⟩

/-- C6 amended, witness at the end-to-end scenario. -/
theorem c6_filenames_witness :
    runExport rs9 0 =
      ExportOutcome.exported (2025, 43) "Semana del (20–Oct al 24–Oct 2025)" [rec1, rec2] ∧
    (excel_filename (2025, 43) =
        "exports/mantenimiento_semana_" ++ toString (2025 : Nat) ++ "_" ++ toString (43 : Nat) ++ ".xlsx" ∧
      pdf_filename (2025, 43) =
        "exports/mantenimiento_semana_" ++ toString (2025 : Nat) ++ "_" ++ toString (43 : Nat) ++ ".pdf" ∧
      excelDownloadName "Semana del (20–Oct al 24–Oct 2025)" =
        "mantenimiento_" ++ "Semana del (20–Oct al 24–Oct 2025)" ++ ".xlsx" ∧
      pdfDownloadName "Semana del (20–Oct al 24–Oct 2025)" =
        "mantenimiento_" ++ "Semana del (20–Oct al 24–Oct 2025)" ++ ".pdf" ∧
      "Semana del (20–Oct al 24–Oct 2025)" = rango rs9 (2025, 43) ∧
      [rec1, rec2] = bucketMembers rs9 (2025, 43)) :=
  ⟨by decide, c6_filenames rs9 0 (2025, 43) "Semana del (20–Oct al 24–Oct 2025)"
    [rec1, rec2] (by decide)⟩

/-- C3: bucketing partitions exactly the dated records.  A record with
a parseable date belongs to the bucket of its key, that key is listed,
and it belongs to no other bucket; a record without a parseable date
belongs to no bucket at all (while trivially remaining in the store the
bucketing never modifies). -/
theorem c3_partition (rs : List Record) (r : Record) (hr : r ∈ rs) :
    (∀ d : Date, r.fecha = some d →
        r ∈ bucketMembers rs (bucketKey d) ∧
        bucketKey d ∈ bucketKeys rs ∧
        ∀ k, r ∈ bucketMembers rs k → k = bucketKey d) ∧
    (r.fecha = none → ∀ k, r ∉ bucketMembers rs k) := by
  constructor
  · intro d hd
    refine ⟨mem_bucketMembers.mpr ⟨hr, d, hd, rfl⟩,
      mem_bucketKeys.mpr ⟨r, hr, d, hd, rfl⟩, ?_⟩
    intro k hk
    obtain ⟨-, d', hd', hk'⟩ := mem_bucketMembers.mp hk
    rw [hd] at hd'
    injection hd' with hdd
    rw [← hk', hdd]
  · intro hd k hk
    obtain ⟨-, d', hd', -⟩ := mem_bucketMembers.mp hk
    rw [hd] at hd'
    cases hd'

/-- C3, witness: the dated record PC-1 of the end-to-end scenario and
its bucket (2025, 43). -/
theorem c3_partition_witness :
    rec1 ∈ rs9 ∧
    ((∀ d : Date, rec1.fecha = some d →
        rec1 ∈ bucketMembers rs9 (bucketKey d) ∧
        bucketKey d ∈ bucketKeys rs9 ∧
        ∀ k, rec1 ∈ bucketMembers rs9 k → k = bucketKey d) ∧
      (rec1.fecha = none → ∀ k, rec1 ∉ bucketMembers rs9 k)) :=
  ⟨by decide, c3_partition rs9 rec1 (by decide)⟩

/-- C4 counterexample: a record whose time cell is unparseable does NOT
render as the empty string everywhere — the PDF table renders the
missing value as the token "nan" (while the date, being parseable,
renders as DD-Mon-YYYY).  The full PDF table data for the record is
computed to exhibit the "nan" cells. -/
theorem c4_nan_token_counterexample :
    fmtHora recNoDate.hora = Cell.nan ∧
    cellPdfText (fmtHora recNoDate.hora) = "nan" ∧
    cellPdfText (fmtHora recNoDate.hora) ≠ "" ∧
    export_pdf_data (weekFrame [recNoDate]) =
      [weekCols, ["Laptop", "", "", "", "", "PC-X", "", "nan", "nan", "nan", "nan"]] := by
  decide

/-- C4 amended: an absent/unparseable date or time becomes a missing
(NaN) cell, which the spreadsheet writes as an empty cell but the PDF
table renders as the token "nan"; a parseable date renders as
DD-Mon-YYYY and a parseable time as a 12-hour clock value with AM/PM
suffix (witnessed at 2025-10-05 and 14:30). -/
theorem c4_formatting (r : Record) :
    (r.fecha = none → fmtFecha r.fecha = Cell.nan) ∧
    (∀ d, r.fecha = some d → fmtFecha r.fecha = Cell.str (fmtDMY d)) ∧
    (r.hora = none → fmtHora r.hora = Cell.nan) ∧
    (∀ t, r.hora = some t → fmtHora r.hora = Cell.str (fmt12 t)) ∧
    cellExcelText Cell.nan = "" ∧
    cellPdfText Cell.nan = "nan" ∧
    fmtDMY ⟨2025, 10, 5⟩ = "05-Oct-2025" ∧
    fmt12 ⟨14, 30⟩ = "02:30 PM" := by
  refine ⟨?_, ?_, ?_, ?_, rfl, rfl, by decide, by decide⟩
  · intro h; rw [h]; rfl
  · intro d h; rw [h]; rfl
  · intro h; rw [h]; rfl
  · intro t h; rw [h]; rfl

/-- C4 amended, witness: the record with missing date and time. -/
theorem c4_formatting_witness :
    recNoDate.fecha = none ∧ fmtFecha recNoDate.fecha = Cell.nan ∧
    recNoDate.hora = none ∧ fmtHora recNoDate.hora = Cell.nan :=
  ⟨rfl, (c4_formatting recNoDate).1 rfl, rfl,
    (c4_formatting recNoDate).2.2.1 rfl⟩

/-- C5: over any well-formed record set, distinct buckets render
distinct `Rango` labels; a singleton bucket (min member date = max
member date) shows that single date at both ends of the range; and
looking a label up again (the first bucket row whose `Rango` matches,
as `.iloc[0]` does) retrieves exactly the bucket it came from, hence
exactly that bucket's members. -/
theorem c5_labels (rs : List Record) (hv : ∀ r ∈ rs, recOk r = true) :
    (∀ k1 ∈ bucketKeys rs, ∀ k2 ∈ bucketKeys rs,
        k1 ≠ k2 → rango rs k1 ≠ rango rs k2) ∧
    (∀ k ∈ bucketKeys rs, ∀ d : Date,
        minD (memberDates rs k) = some d → maxD (memberDates rs k) = some d →
        rango rs k =
          "Semana del (" ++ fmtDM d ++ " al " ++ fmtDM d ++ " " ++ y4 d.year ++ ")") ∧
    (∀ k ∈ bucketKeys rs,
        (bucketKeys rs).find? (fun j => rango rs j == rango rs k) = some k ∧
        ∀ j ∈ bucketKeys rs, rango rs j = rango rs k →
          bucketMembers rs j = bucketMembers rs k) := by
  refine ⟨?_, ?_, ?_⟩
  · intro k1 h1 k2 h2 hne heq
    exact hne (rango_inj hv h1 h2 heq)
  · intro k hk d hmin hmax
    unfold rango
    rw [hmin, hmax]
  · intro k hk
    constructor
    · exact find?_eq_self hk (by simp)
        (fun j hj hpj => rango_inj hv hj hk (by simpa using hpj))
    · intro j hj heq
      rw [rango_inj hv hj hk heq]

/-- C5, witness at the end-to-end record set. -/
theorem c5_labels_witness :
    (∀ r ∈ rs9, recOk r = true) ∧
    ((∀ k1 ∈ bucketKeys rs9, ∀ k2 ∈ bucketKeys rs9,
        k1 ≠ k2 → rango rs9 k1 ≠ rango rs9 k2) ∧
      (∀ k ∈ bucketKeys rs9, ∀ d : Date,
        minD (memberDates rs9 k) = some d → maxD (memberDates rs9 k) = some d →
        rango rs9 k =
          "Semana del (" ++ fmtDM d ++ " al " ++ fmtDM d ++ " " ++ y4 d.year ++ ")") ∧
      (∀ k ∈ bucketKeys rs9,
        (bucketKeys rs9).find? (fun j => rango rs9 j == rango rs9 k) = some k ∧
        ∀ j ∈ bucketKeys rs9, rango rs9 j = rango rs9 k →
          bucketMembers rs9 j = bucketMembers rs9 k)) :=
  ⟨by decide, c5_labels rs9 (by decide)⟩

/-- C7: the add-equipment path is `save(load() + [record])`: after a
submit with a non-empty name, loading the store yields exactly the
previous collection with the new record appended at the end — order
preserved, no sort — whether or not the backing file existed before. -/
theorem c7_append (b : Backing) (f : FormInput) (h : f.nombre ≠ "") :
    (load_data (formSubmit b f true)).1 = (load_data b).1 ++ [mkRecord f] := by
  have hb : (f.nombre == "") = false := by
    cases he : f.nombre == "" with
    | false => rfl
    | true => exact absurd (by simpa using he) h
  cases b with
  | mk contents =>
    cases contents with
    | none => simp [formSubmit, load_data, save_data, hb]
    | some l => simp [formSubmit, load_data, save_data, hb]

/-- A concrete form submission for the C7 witness. -/
def form1 : FormInput :=
  { tipo := "Laptop", departamento := "TI", sucursal := "", responsable := ""
    posicion := "", nombre := "PC-1", correo := "", fecha := ⟨2025, 10, 20⟩
    hora := ⟨9, 0⟩ }

/-- C7, witness: adding PC-1 to a store that does not exist yet. -/
theorem c7_append_witness :
    form1.nombre ≠ "" ∧
    (load_data (formSubmit ⟨none⟩ form1 true)).1 =
      (load_data ⟨none⟩).1 ++ [mkRecord form1] :=
  ⟨by decide, c7_append ⟨none⟩ form1 (by decide)⟩

/-- C8: both renderers accept a view with zero data rows and produce a
document whose table is exactly the header row — the per-column
reformatting maps over no rows and the emitted data is the column list
alone. -/
theorem c8_empty_export (f : Frame) (h : f.rows = []) :
    export_pdf_data f = [f.cols] ∧ excelData f = [f.cols] := by
  have hmap : ∀ (g : Frame) (name : String) (t : Cell → Cell), g.rows = [] →
      (mapColumn g name t).rows = [] ∧ (mapColumn g name t).cols = g.cols := by
    intro g name t hg
    unfold mapColumn
    cases g.cols.findIdx? (· == name) with
    | none => exact ⟨hg, rfl⟩
    | some i => simp [hg]
  obtain ⟨h1, h2⟩ := hmap f "Fecha de Mantenimiento" reformatDateCell h
  obtain ⟨h3, h4⟩ := hmap _ "Hora" reformatTimeCell h1
  constructor
  · unfold export_pdf_data export_pdf_frame pdfTableData
    rw [h3, h4, h2]
    rfl
  · unfold excelData
    rw [h]
    rfl

/-- C8, witness: the formatted view of zero records. -/
theorem c8_empty_export_witness :
    (weekFrame []).rows = [] ∧
    (export_pdf_data (weekFrame []) = [(weekFrame []).cols] ∧
      excelData (weekFrame []) = [(weekFrame []).cols]) :=
  ⟨rfl, c8_empty_export (weekFrame []) rfl⟩

/-- C10: the PDF renderer works on a private copy: running `export_pdf`
on the frame stored at any live id leaves that id's frame untouched
(the copy is made at a fresh id and only the copy is reformatted), and
the produced table data is that of the reformatted copy of the input. -/
theorem c10_pdf_copy (h : Heap) (dfId : Nat) (hid : dfId < h.next) :
    (export_pdf_run h dfId).1.frames dfId = h.frames dfId ∧
    (export_pdf_run h dfId).2 = export_pdf_data (h.frames dfId) := by
  have hne : dfId ≠ h.next := Nat.ne_of_lt hid
  constructor
  · simp [export_pdf_run, Heap.set, hne]
  · simp [export_pdf_run, Heap.set, export_pdf_data, export_pdf_frame]

/-- Concrete one-frame heap for the C10 witness. -/
def heap0 : Heap := ⟨fun _ => weekFrame rs9, 1⟩

/-- C10, witness at a concrete heap holding the scenario frame. -/
theorem c10_pdf_copy_witness :
    0 < heap0.next ∧
    ((export_pdf_run heap0 0).1.frames 0 = heap0.frames 0 ∧
      (export_pdf_run heap0 0).2 = export_pdf_data (heap0.frames 0)) :=
  ⟨by decide, c10_pdf_copy heap0 0 (by decide)⟩

end Mantenimiento
